import Mathlib

/-!
Shallow embedding of the remote-mouse server (`server.py`): the UDP discovery
responder, the PIN authentication handshake, the per-message dispatch of the
session protocol engine, the connection registry bookkeeping, and the
OS-aware hotkey normalization.  Pure Lean translations of the Python
functions, followed by theorems about them.
-/

namespace RemoteMouse

/-- Model of Python `str.lower` on a single character (ASCII range; the key
names handled by the server are ASCII). -/
def lowerChar (c : Char) : Char :=
  if 65 ≤ c.toNat ∧ c.toNat ≤ 90 then Char.ofNat (c.toNat + 32) else c

/-- Model of Python `str.lower`. -/
def pyLower (s : String) : String :=
  ⟨s.data.map lowerChar⟩

/-- Characters removed by Python `str.strip` (ASCII whitespace). -/
def pySpace (c : Char) : Bool :=
  c == ' ' || c == '\t' || c == '\n' || c == '\r' || c == '\x0b' || c == '\x0c'

/-- Model of Python `str.strip`: drop whitespace from both ends. -/
def pyStrip (s : String) : String :=
  ⟨((s.data.dropWhile pySpace).reverse.dropWhile pySpace).reverse⟩

/-- Values produced by Python `json.loads`: null, booleans, numbers
(integral ones suffice for every claim), strings, arrays and objects. -/
inductive Json where
  | null
  | bool (b : Bool)
  | num (n : Int)
  | str (s : String)
  | arr (items : List Json)
  | obj (fields : List (String × Json))
deriving Repr

/-- Lookup in a decoded JSON object, modelling Python dict access on the
result of `json.loads`: a duplicated key keeps the last occurrence. -/
def jlookup (fields : List (String × Json)) (k : String) : Option Json :=
  match fields with
  | [] => none
  | (k2, v) :: rest =>
    match jlookup rest k with
    | some v2 => some v2
    | none => if k2 = k then some v else none

/-- Model of Python `dict.get(k, default)` on a decoded JSON object. -/
def jgetD (fields : List (String × Json)) (k : String) (d : Json) : Json :=
  (jlookup fields k).getD d

/-- Whether a decoded JSON value is hashable in Python (usable as a `dict`
key): lists and dicts are not, everything else the decoder produces is. -/
def isHashable : Json → Bool
  | .arr _ => false
  | .obj _ => false
  | _ => true

/-- Model of Python truthiness (`if x:`) on decoded JSON values. -/
def pyTruthy : Json → Bool
  | .null => false
  | .bool b => b
  | .num n => n != 0
  | .str s => s != ""
  | .arr items => !items.isEmpty
  | .obj fields => !fields.isEmpty

theorem lowerChar_toNat_of_upper (c : Char) (h : 65 ≤ c.toNat ∧ c.toNat ≤ 90) :
    (lowerChar c).toNat = c.toNat + 32 := by
  have hvalid : (c.toNat + 32).isValidChar := by
    unfold Nat.isValidChar
    left
    omega
  simp only [lowerChar, if_pos h, Char.ofNat]
  rw [dif_pos hvalid]
  rfl

theorem lowerChar_of_not_upper (c : Char) (h : ¬ (65 ≤ c.toNat ∧ c.toNat ≤ 90)) :
    lowerChar c = c := by
  simp only [lowerChar, if_neg h]

theorem lowerChar_idem (c : Char) : lowerChar (lowerChar c) = lowerChar c := by
  by_cases h : 65 ≤ c.toNat ∧ c.toNat ≤ 90
  · have ht := lowerChar_toNat_of_upper c h
    exact lowerChar_of_not_upper _ (by omega)
  · rw [lowerChar_of_not_upper c h]
    exact lowerChar_of_not_upper c h

theorem pyLower_idem (s : String) : pyLower (pyLower s) = pyLower s := by
  simp [pyLower, List.map_map, Function.comp_def, lowerChar_idem]

/-- The immutable `CONFIG` dictionary of `server.py` (the float-valued
`discovery_timeout` entry carries no logic and is left out). -/
structure Config where
  pin : String
  ws_port : Nat
  discovery_port : Nat
  server_name : String
  max_connections : Nat
  ping_timeout : Nat
  ping_interval : Nat
deriving Repr, DecidableEq

/-- Concrete configuration values from `server.py`. -/
def CONFIG : Config :=
  { pin := "123456", ws_port := 8765, discovery_port := 9876,
    server_name := "RemoteMouse Pro", max_connections := 10,
    ping_timeout := 30, ping_interval := 10 }

/-- Per-key body of the loop in `RemoteMouseServer.normalize_hotkey_for_os`. -/
def normalize_key_for_os (os_type : String) (key : String) : String :=
  let key_lower := pyLower key
  if os_type = "darwin" then
    if key_lower = "ctrl" then "cmd"
    else if key_lower = "cmd" then "cmd"
    else if key_lower = "alt" then "alt"
    else key_lower
  else
    if key_lower = "cmd" then "ctrl"
    else if key_lower = "ctrl" then "ctrl"
    else if key_lower = "alt" then "alt"
    else key_lower

/-- `RemoteMouseServer.normalize_hotkey_for_os`: the Python loop appends the
per-key result for each key in order, i.e. a map. -/
def normalize_hotkey_for_os (os_type : String) (keys : List String) : List String :=
  keys.map (normalize_key_for_os os_type)

/-- A pynput key object: either one of the `Key.*` constants from the
`key_mapping` table, or a raw string passed through unmapped. -/
inductive KeyObj where
  | special (name : String)
  | lit (s : String)
deriving Repr, DecidableEq

/-- The `key_mapping` dict built in `RemoteMouseServer.__init__`; the entry
for `cmd` depends on the detected operating system. -/
def key_mapping (os_type : String) : List (String × KeyObj) :=
  [("ctrl", .special "ctrl"), ("shift", .special "shift"), ("alt", .special "alt"),
   ("cmd", if os_type = "darwin" then .special "cmd" else .special "ctrl"),
   ("win", .special "cmd"),
   ("enter", .special "enter"), ("tab", .special "tab"), ("esc", .special "esc"),
   ("space", .special "space"),
   ("up", .special "up"), ("down", .special "down"), ("left", .special "left"),
   ("right", .special "right"),
   ("backspace", .special "backspace"), ("delete", .special "delete"),
   ("home", .special "home"), ("end", .special "end"),
   ("pageup", .special "page_up"), ("pagedown", .special "page_down"),
   ("f1", .special "f1"), ("f2", .special "f2"), ("f3", .special "f3"),
   ("f4", .special "f4"), ("f5", .special "f5"), ("f6", .special "f6"),
   ("f7", .special "f7"), ("f8", .special "f8"), ("f9", .special "f9"),
   ("f10", .special "f10"), ("f11", .special "f11"), ("f12", .special "f12")]

/-- The `key_sequence` list built inside `RemoteMouseServer.press_hotkey`:
`self.key_mapping.get(key.lower(), key)` for each normalized key (every
normalized key is a string, so the `isinstance` branch always applies). -/
def key_sequence (os_type : String) (normalized_keys : List String) : List KeyObj :=
  normalized_keys.map fun key =>
    ((key_mapping os_type).lookup (pyLower key)).getD (KeyObj.lit key)

/-- Mouse buttons from `pynput.mouse.Button`. -/
inductive Button where
  | left
  | right
  | middle
deriving Repr, DecidableEq

/-- Typed frames the server writes back to the client. -/
inductive OutMsg where
  | error (msg : String)
  | okHello (server : String) (capabilities : List String)
  | pong
deriving Repr, DecidableEq

/-- Observable effects of dispatching one message: frames sent back plus
calls into the input-injection facility (`pynput`).  Mouse-move deltas are
carried as the raw JSON field values; the server scales them by 1.5 before
injection, which no claim quantifies. -/
inductive Action where
  | reply (m : OutMsg)
  | mouseMove (dx dy : Json)
  | mousePress (b : Button)
  | mouseRelease (b : Button)
  | mouseClick (b : Button) (count : Nat)
  | mouseScroll (dx dy : Int)
  | typeText (text : String)
  | keyPress (k : KeyObj)
  | keyRelease (k : KeyObj)
deriving Repr

/-- `RemoteMouseServer.press_hotkey` on a list of key strings: empty list is
an early return; otherwise normalize, map through `key_mapping`, press all
keys in order and release them in reverse order. -/
def press_hotkey (os_type : String) (keys : List String) : List Action :=
  if keys.isEmpty then []
  else
    let ks := key_sequence os_type (normalize_hotkey_for_os os_type keys)
    ks.map Action.keyPress ++ ks.reverse.map Action.keyRelease

/-- The JSON discovery response assembled in
`RemoteMouseServer.discovery_server`. -/
structure DiscoveryReply where
  name : String
  ip : String
  port : Nat
  pin_required : Bool
  version : String
  capabilities : List String
deriving Repr, DecidableEq

/-- One iteration of the `discovery_server` receive loop, for one inbound
datagram already UTF-8 decoded (`errors=ignore`): reply exactly when the
stripped text equals the sentinel, else do nothing. -/
def discovery_server_step (local_ip : String) (datagram : String) : Option DiscoveryReply :=
  let message := pyStrip datagram
  if message = "remotemouse:discover" then
    some { name := CONFIG.server_name, ip := local_ip, port := CONFIG.ws_port,
           pin_required := true, version := "2.0",
           capabilities := ["mouse", "keyboard", "hotkeys", "scroll"] }
  else none

/-- What `authenticate_client` awaits: a timeout, a frame that fails
`json.loads`, or a decoded JSON frame. -/
inductive AuthInput where
  | timeout
  | badJson
  | frame (j : Json)
deriving Repr

/-- Outcome of `authenticate_client`: its boolean return value, the error
frames it sent, and whether it closed the websocket. -/
structure AuthResult where
  ok : Bool
  sent : List OutMsg
  closed : Bool
deriving Repr, DecidableEq

/-- Python `==` between the result of `dict.get` (a decoded JSON value or
`None`) and a Python string: true exactly when the value is that string. -/
def pyEqStr (v : Option Json) (s : String) : Bool :=
  match v with
  | some (Json.str t) => t == s
  | _ => false

/-- `RemoteMouseServer.authenticate_client`.  A frame decoding to a
non-object JSON value makes `hello_data.get` raise `AttributeError`, which
the final `except Exception` handler turns into a close with no error
frame. -/
def authenticate_client (pin : String) (input : AuthInput) : AuthResult :=
  match input with
  | .timeout => ⟨false, [.error "Authentication timeout"], true⟩
  | .badJson => ⟨false, [.error "Invalid JSON format"], true⟩
  | .frame (Json.obj fields) =>
    if !(pyEqStr (jlookup fields "t") "hello") then
      ⟨false, [.error "Invalid message type, expected \x27hello\x27"], true⟩
    else if !(pyEqStr (jlookup fields "pin") pin) then
      ⟨false, [.error "Invalid PIN"], true⟩
    else ⟨true, [], false⟩
  | .frame _ => ⟨false, [], true⟩

/-- Whether Python `float()` succeeds on a decoded JSON value.  Numbers and
booleans convert; `None`, lists and dicts raise `TypeError`.  For strings
the accepted grammar is modelled by integer literals (Python also accepts
fractional forms; no claim involves string-valued coordinates). -/
def pyFloatOk : Json → Bool
  | .num _ => true
  | .bool _ => true
  | .str s => ((pyStrip s).toInt?).isSome
  | _ => false

/-- Python `int()` on a decoded JSON value, `Except` for `TypeError` or
`ValueError` (string grammar modelled by integer literals, as above). -/
def pyInt : Json → Except Unit Int
  | .num n => .ok n
  | .bool b => .ok (if b then 1 else 0)
  | .str s =>
    match (pyStrip s).toInt? with
    | some n => .ok n
    | none => .error ()
  | _ => .error ()

/-- `button_map.get(btn, Button.left)` in the click branch of
`process_message`: an unhashable key (list or dict) makes `dict.get` raise
`TypeError`; any hashable value not in the map defaults to the left
button. -/
def button_map_get : Json → Except Unit Button
  | .arr _ => .error ()
  | .obj _ => .error ()
  | .str s =>
    if s = "left" then .ok .left
    else if s = "right" then .ok .right
    else if s = "middle" then .ok .middle
    else .ok .left
  | _ => .ok .left

/-- The list of key strings that `press_hotkey` ends up iterating over when
called with the decoded value of the `keys` field: iterating a Python list
yields its elements (any non-string element raises at `key.lower()` inside
the `try` block, pressing nothing), iterating a string yields its
characters, iterating a dict yields its keys. -/
def hotkeyKeyStrings : Json → Option (List String)
  | .arr items =>
    items.mapM fun j =>
      match j with
      | Json.str s => some s
      | _ => none
  | .str s => some (s.data.map fun c => String.mk [c])
  | .obj fields => some (fields.map Prod.fst)
  | _ => none

/-- `press_hotkey` applied to the raw decoded `keys` field.  Falsy values
return immediately; a `TypeError` anywhere inside the function body is
caught by its own handler, so nothing is pressed in that case. -/
def press_hotkey_json (os_type : String) (keys : Json) : List Action :=
  if pyTruthy keys then
    match hotkeyKeyStrings keys with
    | some ks => press_hotkey os_type ks
    | none => []
  else []

/-- `RemoteMouseServer.process_message` on one decoded frame.  `Except`
models an exception escaping the dispatch (re-raised by the handler inside
the function); the action list records replies and injection calls. -/
def process_message (os_type : String) (j : Json) : Except Unit (List Action) :=
  match j with
  | Json.obj fields =>
    match jlookup fields "t" with
    | some (Json.str "move") =>
      if pyFloatOk (jgetD fields "dx" (Json.num 0)) &&
          pyFloatOk (jgetD fields "dy" (Json.num 0)) then
        .ok [Action.mouseMove (jgetD fields "dx" (Json.num 0)) (jgetD fields "dy" (Json.num 0))]
      else .error ()
    | some (Json.str "click") =>
      match button_map_get (jgetD fields "btn" (Json.str "left")) with
      | .error _ => .error ()
      | .ok button =>
        match jlookup fields "down" with
        | some (Json.bool true) => .ok [Action.mousePress button]
        | some (Json.bool false) => .ok [Action.mouseRelease button]
        | _ => .ok [Action.mouseClick button 1]
    | some (Json.str "scroll") =>
      match pyInt (jgetD fields "dx" (Json.num 0)), pyInt (jgetD fields "dy" (Json.num 0)) with
      | .ok dx, .ok dy => .ok [Action.mouseScroll dx dy]
      | _, _ => .error ()
    | some (Json.str "key") =>
      if pyTruthy (jgetD fields "text" (Json.str "")) then
        match jgetD fields "text" (Json.str "") with
        | Json.str s => .ok [Action.typeText s]
        | _ => .error ()
      else .ok []
    | some (Json.str "hotkey") =>
      .ok (press_hotkey_json os_type (jgetD fields "keys" (Json.arr [])))
    | some (Json.str "ping") => .ok [Action.reply OutMsg.pong]
    | _ => .ok []
  | _ => .error ()

/-- One frame of the authenticated message loop in `handle_client`: a frame
that `json.loads` rejects raises inside `process_message`. -/
def processFrame (os_type : String) : Option Json → Except Unit (List Action)
  | none => .error ()
  | some j => process_message os_type j

/-- The `try/except` around `process_message` in the `handle_client` loop:
an exception is answered with one generic error frame and the loop
continues. -/
def clientStep (os_type : String) (frame : Option Json) : List Action :=
  match processFrame os_type frame with
  | .ok acts => acts
  | .error _ => [Action.reply (OutMsg.error "Invalid message format")]

/-- The authenticated message loop of `handle_client` over a sequence of
inbound frames (`none` marks a frame `json.loads` rejects). -/
def sessionLoop (os_type : String) : List (Option Json) → List Action
  | [] => []
  | f :: rest => clientStep os_type f ++ sessionLoop os_type rest

/-- `self.active_connections.add(ws)`: Python set insertion. -/
def addConn (c : Nat) (conns : List Nat) : List Nat :=
  if c ∈ conns then conns else c :: conns

/-- `self.active_connections.discard(ws)`: removal that tolerates a
non-member. -/
def discardConn (c : Nat) (conns : List Nat) : List Nat :=
  conns.filter fun x => x != c

/-- Registry state while the `handle_client` message loop runs: the
connection was added exactly when `authenticate_client` returned true. -/
def handle_client_registry_during (authOk : Bool) (c : Nat) (conns : List Nat) : List Nat :=
  if authOk then addConn c conns else conns

/-- Registry state after `handle_client` returns: the `finally` block always
discards the connection, on every exit path. -/
def handle_client_registry_final (authOk : Bool) (c : Nat) (conns : List Nat) : List Nat :=
  discardConn c (handle_client_registry_during authOk c conns)

/-- The registry operations `handle_client` performs on one connection. -/
inductive RegOp where
  | add
  | discard
deriving Repr, DecidableEq

/-- Trace of registry operations for one connection: failed authentication
skips the add; the `finally` discard always runs. -/
def handle_client_reg_trace (authOk : Bool) : List RegOp :=
  if authOk then [RegOp.add, RegOp.discard] else [RegOp.discard]

/-- Registry growth across a sequence of accepted connections that all
authenticate, none of which has disconnected yet: `handle_client` consults
no connection limit before adding. -/
def runAccepts (cs : List Nat) (conns : List Nat) : List Nat :=
  cs.foldl (fun acc c => handle_client_registry_during true c acc) conns

/-- Keys the keyPress actions of an action list press, in order. -/
def pressedKeys (acts : List Action) : List KeyObj :=
  acts.filterMap fun a =>
    match a with
    | Action.keyPress k => some k
    | _ => none

/-- Keys the keyRelease actions of an action list release, in order. -/
def releasedKeys (acts : List Action) : List KeyObj :=
  acts.filterMap fun a =>
    match a with
    | Action.keyRelease k => some k
    | _ => none

/-- Modifier mapping table of spec section 4.3, written from the spec text:
macOS-like platforms rewrite ctrl to cmd, every other platform rewrites cmd
to ctrl, alt is fixed, and non-modifier keys pass through lower-cased. -/
def spec_normalize_key (macLike : Bool) (key : String) : String :=
  let k := pyLower key
  if macLike then
    if k = "ctrl" ∨ k = "cmd" then "cmd"
    else if k = "alt" then "alt"
    else k
  else
    if k = "cmd" ∨ k = "ctrl" then "ctrl"
    else if k = "alt" then "alt"
    else k

theorem normalize_key_eq_spec (os_type : String) (key : String) :
    normalize_key_for_os os_type key = spec_normalize_key (os_type == "darwin") key := by
  simp only [normalize_key_for_os, spec_normalize_key]
  by_cases hos : os_type = "darwin" <;>
    by_cases h1 : pyLower key = "ctrl" <;>
    by_cases h2 : pyLower key = "cmd" <;>
    by_cases h3 : pyLower key = "alt" <;>
    simp_all

theorem normalize_key_passthrough (os_type : String) (key : String)
    (h1 : pyLower key ≠ "ctrl") (h2 : pyLower key ≠ "cmd") (h3 : pyLower key ≠ "alt") :
    normalize_key_for_os os_type key = pyLower key := by
  simp only [normalize_key_for_os]
  by_cases hos : os_type = "darwin" <;> simp [hos, h1, h2, h3]

theorem normalize_key_for_os_idem (os_type : String) (key : String) :
    normalize_key_for_os os_type (normalize_key_for_os os_type key) =
      normalize_key_for_os os_type key := by
  have hcmd : pyLower "cmd" = "cmd" := by decide
  have hctrl : pyLower "ctrl" = "ctrl" := by decide
  have halt : pyLower "alt" = "alt" := by decide
  have hidem := pyLower_idem key
  unfold normalize_key_for_os
  by_cases hos : os_type = "darwin" <;>
    by_cases h1 : pyLower key = "ctrl" <;>
    by_cases h2 : pyLower key = "cmd" <;>
    by_cases h3 : pyLower key = "alt" <;>
    simp_all

theorem pressedKeys_append (l1 l2 : List Action) :
    pressedKeys (l1 ++ l2) = pressedKeys l1 ++ pressedKeys l2 := by
  simp [pressedKeys, List.filterMap_append]

theorem releasedKeys_append (l1 l2 : List Action) :
    releasedKeys (l1 ++ l2) = releasedKeys l1 ++ releasedKeys l2 := by
  simp [releasedKeys, List.filterMap_append]

theorem pressedKeys_map_press (ks : List KeyObj) :
    pressedKeys (ks.map Action.keyPress) = ks := by
  simp [pressedKeys, List.filterMap_map, Function.comp_def]

theorem pressedKeys_map_release (ks : List KeyObj) :
    pressedKeys (ks.map Action.keyRelease) = [] := by
  simp [pressedKeys, List.filterMap_map, Function.comp_def]

theorem releasedKeys_map_release (ks : List KeyObj) :
    releasedKeys (ks.map Action.keyRelease) = ks := by
  simp [releasedKeys, List.filterMap_map, Function.comp_def]

theorem releasedKeys_map_press (ks : List KeyObj) :
    releasedKeys (ks.map Action.keyPress) = [] := by
  simp [releasedKeys, List.filterMap_map, Function.comp_def]

/-- C2: for every platform identifier and list of key names,
`normalize_hotkey_for_os` is the (deterministic, total) element-wise map of
the section 4.3 table: on a macOS-like platform ctrl maps to cmd while cmd
and alt map to themselves, on every other platform cmd maps to ctrl while
ctrl and alt map to themselves, and non-modifier keys pass through
lower-cased and otherwise unchanged. -/
theorem hotkey_normalization_matches_spec_table (os_type : String) (keys : List String) :
    normalize_hotkey_for_os os_type keys =
      keys.map (spec_normalize_key (os_type == "darwin")) := by
  unfold normalize_hotkey_for_os
  induction keys with
  | nil => rfl
  | cons k ks ih => simp only [List.map_cons, normalize_key_eq_spec, ih]

/-- C3: executing a hotkey command of length n presses exactly n keys and
releases exactly n keys, the press order is the normalized key order (image
under the key-mapping table), the release order is the exact reverse of the
press order, and the empty command is a complete no-op. -/
theorem hotkey_press_release_balanced (os_type : String) (keys : List String) :
    (pressedKeys (press_hotkey os_type keys)).length = keys.length ∧
    (releasedKeys (press_hotkey os_type keys)).length = keys.length ∧
    pressedKeys (press_hotkey os_type keys) =
      key_sequence os_type (normalize_hotkey_for_os os_type keys) ∧
    releasedKeys (press_hotkey os_type keys) =
      (pressedKeys (press_hotkey os_type keys)).reverse ∧
    press_hotkey os_type [] = [] := by
  by_cases hk : keys = []
  · subst hk
    refine ⟨rfl, rfl, rfl, rfl, rfl⟩
  · have hne : keys.isEmpty = false := by
      cases keys with
      | nil => exact absurd rfl hk
      | cons a l => rfl
    simp only [press_hotkey, hne, Bool.false_eq_true, if_false]
    rw [pressedKeys_append, releasedKeys_append, pressedKeys_map_press,
        pressedKeys_map_release, releasedKeys_map_press, releasedKeys_map_release]
    simp [key_sequence, normalize_hotkey_for_os]

/-- C8 counterexample: the non-modifier key name "Shift" is not passed
through verbatim; the code lower-cases it to "shift". -/
theorem unrecognized_key_not_verbatim :
    normalize_hotkey_for_os "linux" ["Shift"] = ["shift"] ∧
    normalize_hotkey_for_os "linux" ["Shift"] ≠ ["Shift"] := by
  have h : normalize_hotkey_for_os "linux" ["Shift"] = ["shift"] := by decide
  refine ⟨h, ?_⟩
  rw [h]
  decide

/-- C8 (amended): a key name whose lower-cased form is none of ctrl, cmd,
alt is passed through lower-cased but otherwise unchanged, in place; in
particular an already-lowercase unrecognized name is passed verbatim. -/
theorem unrecognized_key_lowercase_passthrough (os_type : String)
    (pre post : List String) (key : String)
    (h1 : pyLower key ≠ "ctrl") (h2 : pyLower key ≠ "cmd") (h3 : pyLower key ≠ "alt") :
    normalize_hotkey_for_os os_type (pre ++ key :: post) =
      normalize_hotkey_for_os os_type pre ++
        pyLower key :: normalize_hotkey_for_os os_type post := by
  unfold normalize_hotkey_for_os
  simp only [List.map_append, List.map_cons]
  rw [normalize_key_passthrough os_type key h1 h2 h3]

/-- Witness for the amended C8 theorem at a concrete input. -/
theorem unrecognized_key_lowercase_passthrough_witness :
    normalize_hotkey_for_os "linux" (["a"] ++ "Shift" :: ["b"]) =
      normalize_hotkey_for_os "linux" ["a"] ++
        pyLower "Shift" :: normalize_hotkey_for_os "linux" ["b"] :=
  unrecognized_key_lowercase_passthrough "linux" ["a"] ["b"] "Shift"
    (by decide) (by decide) (by decide)

/-- C10: hotkey normalization is idempotent for every platform identifier
and every key list. -/
theorem hotkey_normalization_idempotent (os_type : String) (keys : List String) :
    normalize_hotkey_for_os os_type (normalize_hotkey_for_os os_type keys) =
      normalize_hotkey_for_os os_type keys := by
  induction keys with
  | nil => rfl
  | cons k ks ih =>
    simp only [normalize_hotkey_for_os, List.map_cons, List.map_map] at ih ⊢
    rw [normalize_key_for_os_idem]
    exact congrArg _ (by simpa [normalize_hotkey_for_os, List.map_map] using ih)

theorem pyEqStr_iff (v : Option Json) (s : String) :
    pyEqStr v s = true ↔ v = some (Json.str s) := by
  cases v with
  | none => simp [pyEqStr]
  | some j => cases j <;> simp [pyEqStr]

theorem pyEqStr_eq_false (v : Option Json) (s : String) (h : v ≠ some (Json.str s)) :
    pyEqStr v s = false :=
  Bool.eq_false_iff.mpr fun hb => h ((pyEqStr_iff v s).mp hb)

/-- C1 (amended): the handshake succeeds exactly on a frame decoding to a
JSON object whose tag is the string "hello" and whose pin equals the
configured PIN; timeout, unparseable JSON, a wrong tag on an object frame,
and a PIN mismatch each send one distinguishing typed error frame and
close; a frame decoding to non-object JSON closes with no error frame; the
one-shot input leaves no second hello attempt. -/
theorem auth_handshake_amended (pin : String) :
    authenticate_client pin AuthInput.timeout =
        ⟨false, [OutMsg.error "Authentication timeout"], true⟩ ∧
    authenticate_client pin AuthInput.badJson =
        ⟨false, [OutMsg.error "Invalid JSON format"], true⟩ ∧
    (∀ fields, jlookup fields "t" = some (Json.str "hello") →
        jlookup fields "pin" = some (Json.str pin) →
        authenticate_client pin (AuthInput.frame (Json.obj fields)) = ⟨true, [], false⟩) ∧
    (∀ fields, jlookup fields "t" ≠ some (Json.str "hello") →
        authenticate_client pin (AuthInput.frame (Json.obj fields)) =
          ⟨false, [OutMsg.error "Invalid message type, expected \x27hello\x27"], true⟩) ∧
    (∀ fields, jlookup fields "t" = some (Json.str "hello") →
        jlookup fields "pin" ≠ some (Json.str pin) →
        authenticate_client pin (AuthInput.frame (Json.obj fields)) =
          ⟨false, [OutMsg.error "Invalid PIN"], true⟩) ∧
    (∀ j, (∀ fields, j ≠ Json.obj fields) →
        authenticate_client pin (AuthInput.frame j) = ⟨false, [], true⟩) := by
  refine ⟨rfl, rfl, ?_, ?_, ?_, ?_⟩
  · intro fields h1 h2
    have b1 : pyEqStr (jlookup fields "t") "hello" = true := (pyEqStr_iff _ _).mpr h1
    have b2 : pyEqStr (jlookup fields "pin") pin = true := (pyEqStr_iff _ _).mpr h2
    simp [authenticate_client, b1, b2]
  · intro fields h1
    have b1 := pyEqStr_eq_false (jlookup fields "t") "hello" h1
    simp [authenticate_client, b1]
  · intro fields h1 h2
    have b1 : pyEqStr (jlookup fields "t") "hello" = true := (pyEqStr_iff _ _).mpr h1
    have b2 := pyEqStr_eq_false (jlookup fields "pin") pin h2
    simp [authenticate_client, b1, b2]
  · intro j hj
    cases j with
    | null => rfl
    | bool b => rfl
    | num n => rfl
    | str s => rfl
    | arr items => rfl
    | obj fields => exact absurd rfl (hj fields)

/-- Witness for the amended C1 theorem: the reference PIN handshake
succeeds on a well-formed hello frame. -/
theorem auth_handshake_amended_witness :
    authenticate_client "123456"
        (AuthInput.frame (Json.obj [("t", Json.str "hello"), ("pin", Json.str "123456")])) =
      ⟨true, [], false⟩ :=
  (auth_handshake_amended "123456").2.2.1
    [("t", Json.str "hello"), ("pin", Json.str "123456")] rfl rfl

/-- C1 counterexample: the frame "42" parses as JSON and is not a hello,
yet the engine closes the connection without sending any typed error frame,
against the claim that every such failure is answered with one. -/
theorem auth_nonobject_frame_silent_close :
    (authenticate_client "123456" (AuthInput.frame (Json.num 42))).ok = false ∧
    (authenticate_client "123456" (AuthInput.frame (Json.num 42))).sent = [] ∧
    (authenticate_client "123456" (AuthInput.frame (Json.num 42))).closed = true :=
  ⟨rfl, rfl, rfl⟩

/-- C4: a connection is in the registry during the message loop exactly
when its handshake succeeded, the add operation runs exactly once on
success and never on failure, the connection is removed on the terminal
transition, discarding a non-member changes nothing, and a second hello
while authenticated hits the unknown-tag branch: no action, no
re-authentication. -/
theorem registry_membership_auth_gated (authOk : Bool) (c : Nat) (conns : List Nat)
    (os_type : String) (fields : List (String × Json))
    (hc : c ∉ conns)
    (hhello : jlookup fields "t" = some (Json.str "hello")) :
    (c ∈ handle_client_registry_during authOk c conns ↔ authOk = true) ∧
    (handle_client_reg_trace authOk).count RegOp.add = (if authOk then 1 else 0) ∧
    c ∉ handle_client_registry_final authOk c conns ∧
    discardConn c conns = conns ∧
    process_message os_type (Json.obj fields) = Except.ok [] := by
  refine ⟨?_, ?_, ?_, ?_, ?_⟩
  · cases authOk <;> simp [handle_client_registry_during, addConn, hc]
  · cases authOk <;> rfl
  · simp [handle_client_registry_final, discardConn, List.mem_filter]
  · refine List.filter_eq_self.mpr fun x hx => ?_
    simp only [bne_iff_ne, ne_eq]
    exact fun h => hc (h ▸ hx)
  · simp [process_message, hhello]

/-- Witness for the C4 theorem: an authenticated connection is registered. -/
theorem registry_membership_auth_gated_witness :
    5 ∈ handle_client_registry_during true 5 [] :=
  (registry_membership_auth_gated true 5 [] "linux" [("t", Json.str "hello")]
      (by simp) rfl).1.mpr rfl

/-- C5: the discovery responder replies to a datagram exactly when its
decoded, stripped text is the sentinel, and the reply carries the
configured server name, the advertised IP, the control port, pin_required
true, version "2.0" and the capability list; every other datagram gets no
reply. -/
theorem discovery_reply_iff_sentinel (local_ip datagram : String) :
    ((discovery_server_step local_ip datagram).isSome ↔
        pyStrip datagram = "remotemouse:discover") ∧
    (pyStrip datagram = "remotemouse:discover" →
      discovery_server_step local_ip datagram =
        some { name := CONFIG.server_name, ip := local_ip, port := CONFIG.ws_port,
               pin_required := true, version := "2.0",
               capabilities := ["mouse", "keyboard", "hotkeys", "scroll"] }) ∧
    (pyStrip datagram ≠ "remotemouse:discover" →
      discovery_server_step local_ip datagram = none) := by
  by_cases h : pyStrip datagram = "remotemouse:discover" <;>
    simp [discovery_server_step, h]

/-- Witness for the C5 theorem: a sentinel datagram with surrounding
whitespace gets the full identity reply. -/
theorem discovery_reply_iff_sentinel_witness :
    discovery_server_step "192.168.1.7" "  remotemouse:discover\n" =
      some { name := CONFIG.server_name, ip := "192.168.1.7", port := CONFIG.ws_port,
             pin_required := true, version := "2.0",
             capabilities := ["mouse", "keyboard", "hotkeys", "scroll"] } :=
  (discovery_reply_iff_sentinel "192.168.1.7" "  remotemouse:discover\n").2.1 (by decide)

/-- C6: a frame whose parse or dispatch raises is answered with exactly one
generic error frame and the loop goes on to process the remaining frames
unchanged: the connection is not closed. -/
theorem malformed_frame_nonfatal (os_type : String) (f : Option Json)
    (rest : List (Option Json)) (h : processFrame os_type f = Except.error ()) :
    sessionLoop os_type (f :: rest) =
      Action.reply (OutMsg.error "Invalid message format") :: sessionLoop os_type rest := by
  simp [sessionLoop, clientStep, h]

/-- Witness for the C6 theorem: an unparseable frame followed by a valid
ping. -/
theorem malformed_frame_nonfatal_witness :
    sessionLoop "linux" (none :: [some (Json.obj [("t", Json.str "ping")])]) =
      Action.reply (OutMsg.error "Invalid message format") ::
        sessionLoop "linux" [some (Json.obj [("t", Json.str "ping")])] :=
  malformed_frame_nonfatal "linux" none [some (Json.obj [("t", Json.str "ping")])] rfl

/-- C7: `handle_client` consults no connection limit, so after eleven
successfully authenticated connections the registry holds eleven members
while the configured `max_connections` is ten — the cap is not enforced. -/
theorem max_connections_not_enforced :
    (runAccepts [1, 2, 3, 4, 5, 6, 7, 8, 9, 10, 11] []).length = 11 ∧
    CONFIG.max_connections = 10 ∧ 10 < 11 :=
  ⟨rfl, rfl, by omega⟩

/-- C9 counterexample: a click whose btn field is a JSON array is not
treated as the left button: `dict.get` raises on the unhashable key and the
dispatch errors out. -/
theorem click_unhashable_btn_raises :
    process_message "linux"
        (Json.obj [("t", Json.str "click"), ("btn", Json.arr [])]) =
      Except.error () := rfl

/-- C9 (amended): for a click message whose btn value is hashable (not a
JSON array or object) and not exactly the string "right" or "middle", and
whose down value is anything other than the exact booleans, the handler
performs a single left click; array or object btn values instead raise and
are answered by the generic error frame of the message loop. -/
theorem click_handler_defaults_amended (os_type : String) (fields : List (String × Json))
    (ht : jlookup fields "t" = some (Json.str "click"))
    (hhash : isHashable (jgetD fields "btn" (Json.str "left")) = true)
    (hb1 : jgetD fields "btn" (Json.str "left") ≠ Json.str "right")
    (hb2 : jgetD fields "btn" (Json.str "left") ≠ Json.str "middle")
    (hdown : ∀ b : Bool, jlookup fields "down" ≠ some (Json.bool b)) :
    process_message os_type (Json.obj fields) =
      Except.ok [Action.mouseClick Button.left 1] := by
  have hbtn : button_map_get (jgetD fields "btn" (Json.str "left")) = Except.ok Button.left := by
    rcases hv : jgetD fields "btn" (Json.str "left") with _ | b | n | s | items | fs
    · rfl
    · rfl
    · rfl
    · rw [hv] at hb1 hb2
      have hs1 : s ≠ "right" := fun h => hb1 (by rw [h])
      have hs2 : s ≠ "middle" := fun h => hb2 (by rw [h])
      by_cases hsl : s = "left" <;> simp [button_map_get, hsl, hs1, hs2]
    · rw [hv] at hhash
      simp [isHashable] at hhash
    · rw [hv] at hhash
      simp [isHashable] at hhash
  simp only [process_message, ht, hbtn]
  rcases hd : jlookup fields "down" with _ | v
  · rfl
  · cases v with
    | bool b => exact absurd hd (hdown b)
    | null => rfl
    | num n => rfl
    | str s => rfl
    | arr items => rfl
    | obj fs => rfl

/-- Witness for the amended C9 theorem: btn 7 and down 1 give a single left
click. -/
theorem click_handler_defaults_amended_witness :
    process_message "linux"
        (Json.obj [("t", Json.str "click"), ("btn", Json.num 7), ("down", Json.num 1)]) =
      Except.ok [Action.mouseClick Button.left 1] :=
  click_handler_defaults_amended "linux"
    [("t", Json.str "click"), ("btn", Json.num 7), ("down", Json.num 1)]
    rfl rfl (fun h => Json.noConfusion h) (fun h => Json.noConfusion h)
    (fun _ h => Json.noConfusion (Option.some.inj h))

end RemoteMouse
